import Mathlib

/-!
Verification of the odds calculator core (odds_xg.py): the forward
bivariate Poisson 1X2 model, the draw-no-bet intensity solver and the
over/under 2.5 goals block, embedded shallowly over the reals.
-/

namespace OddsXg

/-- Error conditions of the calculator.  Both are raised as ValueError in
the source; they are distinguished here by raise site, matching the error
taxonomy of the specification (InvalidArgument vs OptimizationFailure). -/
inductive OddsError where
  | invalidArgument (msg : String) : OddsError
  | optimizationFailure (msg : String) : OddsError

/-- Poisson probability mass function, the semantics of
scipy.stats.poisson.pmf k mu for a real rate mu. -/
noncomputable def poissonPmf (k : ℕ) (μ : ℝ) : ℝ :=
  Real.exp (-μ) * μ ^ k / (Nat.factorial k)

/-- Goal values enumerated by the double loop of calculate_1x2_and_xg:
Python range (max_goals + 1), which is empty when max_goals < 0. -/
def goalRange (max_goals : ℤ) : Finset ℕ :=
  Finset.range (max_goals + 1).toNat

/-- Mass accumulated into p_home_win by the double loop (terms with
home_goals > away_goals). -/
noncomputable def pHomeWinMass (home_xg away_xg : ℝ) (max_goals : ℤ) : ℝ :=
  ∑ home_goals ∈ goalRange max_goals, ∑ away_goals ∈ goalRange max_goals,
    if home_goals > away_goals then
      poissonPmf home_goals home_xg * poissonPmf away_goals away_xg
    else 0

/-- Mass accumulated into p_draw by the double loop (terms with
home_goals = away_goals). -/
noncomputable def pDrawMass (home_xg away_xg : ℝ) (max_goals : ℤ) : ℝ :=
  ∑ home_goals ∈ goalRange max_goals, ∑ away_goals ∈ goalRange max_goals,
    if home_goals = away_goals then
      poissonPmf home_goals home_xg * poissonPmf away_goals away_xg
    else 0

/-- Mass accumulated into p_away_win by the double loop (terms with
home_goals < away_goals). -/
noncomputable def pAwayWinMass (home_xg away_xg : ℝ) (max_goals : ℤ) : ℝ :=
  ∑ home_goals ∈ goalRange max_goals, ∑ away_goals ∈ goalRange max_goals,
    if home_goals < away_goals then
      poissonPmf home_goals home_xg * poissonPmf away_goals away_xg
    else 0

/-- calculate_1x2_and_xg from the source: validate the intensities, sum the
truncated bivariate Poisson grid into three outcome buckets, and normalize
when the accumulated total is positive. -/
noncomputable def calculate_1x2_and_xg (home_xg away_xg : ℝ) (max_goals : ℤ := 10) :
    Except OddsError (ℝ × ℝ × ℝ) :=
  if home_xg < 0 ∨ away_xg < 0 then
    Except.error (OddsError.invalidArgument "Invalid inputs: xG values must be non-negative")
  else
    let p_home_win := pHomeWinMass home_xg away_xg max_goals
    let p_draw := pDrawMass home_xg away_xg max_goals
    let p_away_win := pAwayWinMass home_xg away_xg max_goals
    let total := p_home_win + p_draw + p_away_win
    if total > 0 then
      Except.ok (p_home_win / total, p_draw / total, p_away_win / total)
    else
      Except.ok (p_home_win, p_draw, p_away_win)

/-! Basic facts about the Poisson mass terms. -/

lemma poissonPmf_nonneg {μ : ℝ} (hμ : 0 ≤ μ) (k : ℕ) : 0 ≤ poissonPmf k μ := by
  unfold poissonPmf
  have h1 : 0 < Real.exp (-μ) := Real.exp_pos _
  have h2 : (0:ℝ) ≤ μ ^ k := pow_nonneg hμ k
  have h3 : (0:ℝ) < (Nat.factorial k : ℝ) := by
    exact_mod_cast Nat.factorial_pos k
  positivity

lemma poissonPmf_zero (μ : ℝ) : poissonPmf 0 μ = Real.exp (-μ) := by
  simp [poissonPmf]

lemma poissonPmf_zero_pos (μ : ℝ) : 0 < poissonPmf 0 μ := by
  rw [poissonPmf_zero]; exact Real.exp_pos _

lemma poissonPmf_rate_zero (k : ℕ) : poissonPmf k 0 = if k = 0 then 1 else 0 := by
  rcases Nat.eq_zero_or_pos k with hk | hk
  · subst hk; simp [poissonPmf]
  · rw [if_neg (Nat.pos_iff_ne_zero.mp hk)]
    simp [poissonPmf, zero_pow (Nat.pos_iff_ne_zero.mp hk)]

lemma ite_term_nonneg {c : Prop} [Decidable c] {x : ℝ} (hx : 0 ≤ x) :
    0 ≤ if c then x else 0 := by
  split
  · exact hx
  · exact le_refl 0

lemma pHomeWinMass_nonneg {h a : ℝ} (hh : 0 ≤ h) (ha : 0 ≤ a) (g : ℤ) :
    0 ≤ pHomeWinMass h a g := by
  refine Finset.sum_nonneg fun i _ => Finset.sum_nonneg fun j _ => ?_
  exact ite_term_nonneg (mul_nonneg (poissonPmf_nonneg hh i) (poissonPmf_nonneg ha j))

lemma pDrawMass_nonneg {h a : ℝ} (hh : 0 ≤ h) (ha : 0 ≤ a) (g : ℤ) :
    0 ≤ pDrawMass h a g := by
  refine Finset.sum_nonneg fun i _ => Finset.sum_nonneg fun j _ => ?_
  exact ite_term_nonneg (mul_nonneg (poissonPmf_nonneg hh i) (poissonPmf_nonneg ha j))

lemma pAwayWinMass_nonneg {h a : ℝ} (hh : 0 ≤ h) (ha : 0 ≤ a) (g : ℤ) :
    0 ≤ pAwayWinMass h a g := by
  refine Finset.sum_nonneg fun i _ => Finset.sum_nonneg fun j _ => ?_
  exact ite_term_nonneg (mul_nonneg (poissonPmf_nonneg hh i) (poissonPmf_nonneg ha j))

lemma zero_mem_goalRange {g : ℤ} (hg : 0 ≤ g) : (0 : ℕ) ∈ goalRange g := by
  unfold goalRange
  rw [Finset.mem_range]
  omega

/-- The (0, 0) grid cell lies in the draw bucket, so the draw mass dominates
its strictly positive probability. -/
lemma pDrawMass_ge {h a : ℝ} (hh : 0 ≤ h) (ha : 0 ≤ a) {g : ℤ} (hg : 0 ≤ g) :
    poissonPmf 0 h * poissonPmf 0 a ≤ pDrawMass h a g := by
  have hmem := zero_mem_goalRange hg
  have hterm : poissonPmf 0 h * poissonPmf 0 a =
      (if (0 : ℕ) = (0 : ℕ) then poissonPmf 0 h * poissonPmf 0 a else 0) := by simp
  have hinner : (if (0 : ℕ) = (0 : ℕ) then poissonPmf 0 h * poissonPmf 0 a else 0) ≤
      ∑ j ∈ goalRange g, if (0 : ℕ) = j then poissonPmf 0 h * poissonPmf j a else 0 := by
    refine Finset.single_le_sum (f := fun j =>
        if (0 : ℕ) = j then poissonPmf 0 h * poissonPmf j a else 0) (fun j _ => ?_) hmem
    exact ite_term_nonneg (mul_nonneg (poissonPmf_nonneg hh 0) (poissonPmf_nonneg ha j))
  have houter : (∑ j ∈ goalRange g, if (0 : ℕ) = j then poissonPmf 0 h * poissonPmf j a else 0) ≤
      pDrawMass h a g := by
    unfold pDrawMass
    refine Finset.single_le_sum (f := fun i =>
        ∑ j ∈ goalRange g, if i = j then poissonPmf i h * poissonPmf j a else 0)
      (fun i _ => ?_) hmem
    refine Finset.sum_nonneg fun j _ => ?_
    exact ite_term_nonneg (mul_nonneg (poissonPmf_nonneg hh i) (poissonPmf_nonneg ha j))
  calc poissonPmf 0 h * poissonPmf 0 a
      = _ := hterm
    _ ≤ _ := hinner
    _ ≤ _ := houter

/-- Total accumulated mass of the truncated grid is strictly positive once the
grid is nonempty: the (0, 0) cell alone contributes exp (-h) * exp (-a) > 0. -/
lemma totalMass_pos {h a : ℝ} (hh : 0 ≤ h) (ha : 0 ≤ a) {g : ℤ} (hg : 0 ≤ g) :
    0 < pHomeWinMass h a g + pDrawMass h a g + pAwayWinMass h a g := by
  have h1 := pHomeWinMass_nonneg hh ha g
  have h3 := pAwayWinMass_nonneg hh ha g
  have h2 : 0 < pDrawMass h a g :=
    lt_of_lt_of_le (mul_pos (poissonPmf_zero_pos h) (poissonPmf_zero_pos a)) (pDrawMass_ge hh ha hg)
  linarith

lemma goalRange_neg {g : ℤ} (hg : g < 0) : goalRange g = ∅ := by
  unfold goalRange
  have : (g + 1).toNat = 0 := by omega
  rw [this]
  rfl

lemma pHomeWinMass_neg {h a : ℝ} {g : ℤ} (hg : g < 0) : pHomeWinMass h a g = 0 := by
  unfold pHomeWinMass
  rw [goalRange_neg hg]
  rfl

lemma pDrawMass_neg {h a : ℝ} {g : ℤ} (hg : g < 0) : pDrawMass h a g = 0 := by
  unfold pDrawMass
  rw [goalRange_neg hg]
  rfl

lemma pAwayWinMass_neg {h a : ℝ} {g : ℤ} (hg : g < 0) : pAwayWinMass h a g = 0 := by
  unfold pAwayWinMass
  rw [goalRange_neg hg]
  rfl

/-! Evaluation of the three masses at zero intensities. -/

lemma pHomeWinMass_rate_zero (g : ℤ) : pHomeWinMass 0 0 g = 0 := by
  unfold pHomeWinMass
  refine Finset.sum_eq_zero fun i _ => Finset.sum_eq_zero fun j _ => ?_
  simp only [poissonPmf_rate_zero]
  by_cases hij : i > j
  · rw [if_pos hij, if_neg (by omega : ¬ i = 0), zero_mul]
  · exact if_neg hij

lemma pAwayWinMass_rate_zero (g : ℤ) : pAwayWinMass 0 0 g = 0 := by
  unfold pAwayWinMass
  refine Finset.sum_eq_zero fun i _ => Finset.sum_eq_zero fun j _ => ?_
  simp only [poissonPmf_rate_zero]
  by_cases hij : i < j
  · rw [if_pos hij, if_neg (by omega : ¬ j = 0), mul_zero]
  · exact if_neg hij

lemma pDrawMass_rate_zero {g : ℤ} (hg : 0 ≤ g) : pDrawMass 0 0 g = 1 := by
  unfold pDrawMass
  simp only [poissonPmf_rate_zero]
  have hinner : ∀ i ∈ goalRange g,
      (∑ j ∈ goalRange g, if i = j then
        (if i = 0 then (1:ℝ) else 0) * (if j = 0 then 1 else 0) else 0) =
      if i = 0 then 1 else 0 := by
    intro i hi
    rw [Finset.sum_ite_eq (goalRange g) i
      (fun j => (if i = 0 then (1:ℝ) else 0) * (if j = 0 then 1 else 0)), if_pos hi]
    by_cases h0 : i = 0 <;> simp [h0]
  rw [Finset.sum_congr rfl hinner,
    Finset.sum_ite_eq' (goalRange g) 0 (fun _ => (1:ℝ)), if_pos (zero_mem_goalRange hg)]

/-- Claim C1: for nonnegative intensities, calculate_1x2_and_xg at the default
max_goals = 10 returns three probabilities, each inside [0, 1], summing to 1
within 1e-9; at the degenerate input home_xg = away_xg = 0 the result is
exactly (0, 1, 0). -/
theorem calculate_1x2_probabilities (home_xg away_xg : ℝ)
    (hh : 0 ≤ home_xg) (ha : 0 ≤ away_xg) :
    (∃ p : ℝ × ℝ × ℝ, calculate_1x2_and_xg home_xg away_xg 10 = Except.ok p ∧
      0 ≤ p.1 ∧ p.1 ≤ 1 ∧ 0 ≤ p.2.1 ∧ p.2.1 ≤ 1 ∧ 0 ≤ p.2.2 ∧ p.2.2 ≤ 1 ∧
      |p.1 + p.2.1 + p.2.2 - 1| ≤ 1e-9) ∧
    calculate_1x2_and_xg 0 0 10 = Except.ok (0, 1, 0) := by
  constructor
  · have hg : (0:ℤ) ≤ 10 := by norm_num
    have htot := totalMass_pos hh ha hg
    have hph := pHomeWinMass_nonneg hh ha 10
    have hpd := pDrawMass_nonneg hh ha 10
    have hpa := pAwayWinMass_nonneg hh ha 10
    set t := pHomeWinMass home_xg away_xg 10 + pDrawMass home_xg away_xg 10 +
      pAwayWinMass home_xg away_xg 10 with ht
    refine ⟨(pHomeWinMass home_xg away_xg 10 / t, pDrawMass home_xg away_xg 10 / t,
      pAwayWinMass home_xg away_xg 10 / t), ?_, ?_, ?_, ?_, ?_, ?_, ?_, ?_⟩
    · unfold calculate_1x2_and_xg
      rw [if_neg (by push_neg; exact ⟨hh, ha⟩), if_pos htot]
    · exact div_nonneg hph htot.le
    · exact (div_le_one htot).mpr (by linarith)
    · exact div_nonneg hpd htot.le
    · exact (div_le_one htot).mpr (by linarith)
    · exact div_nonneg hpa htot.le
    · exact (div_le_one htot).mpr (by linarith)
    · rw [div_add_div_same, div_add_div_same, ← ht, div_self (ne_of_gt htot)]
      norm_num
  · unfold calculate_1x2_and_xg
    rw [if_neg (by norm_num)]
    rw [pHomeWinMass_rate_zero, pAwayWinMass_rate_zero,
      pDrawMass_rate_zero (by norm_num : (0:ℤ) ≤ 10)]
    norm_num

/-- Witness for claim C1 at home_xg = 0, away_xg = 0. -/
theorem calculate_1x2_probabilities_witness :
    (0 : ℝ) ≤ 0 ∧
    ((∃ p : ℝ × ℝ × ℝ, calculate_1x2_and_xg 0 0 10 = Except.ok p ∧
      0 ≤ p.1 ∧ p.1 ≤ 1 ∧ 0 ≤ p.2.1 ∧ p.2.1 ≤ 1 ∧ 0 ≤ p.2.2 ∧ p.2.2 ≤ 1 ∧
      |p.1 + p.2.1 + p.2.2 - 1| ≤ 1e-9) ∧
    calculate_1x2_and_xg 0 0 10 = Except.ok (0, 1, 0)) :=
  ⟨le_refl 0, calculate_1x2_probabilities 0 0 (le_refl 0) (le_refl 0)⟩

/-- Claim C5: calculate_1x2_and_xg fails with the InvalidArgument condition if
and only if home_xg < 0 or away_xg < 0; the check is the first statement of the
function, before any probability accumulation. -/
theorem calculate_1x2_invalid_iff (home_xg away_xg : ℝ) (max_goals : ℤ) :
    calculate_1x2_and_xg home_xg away_xg max_goals =
      Except.error (OddsError.invalidArgument "Invalid inputs: xG values must be non-negative") ↔
    (home_xg < 0 ∨ away_xg < 0) := by
  unfold calculate_1x2_and_xg
  split_ifs with h1
  · simp [h1]
  · simp only [iff_false_intro h1]
    split <;> simp

/-! Symmetry of the truncated grid in the two intensities. -/

lemma pHomeWinMass_swap (h a : ℝ) (g : ℤ) : pHomeWinMass h a g = pAwayWinMass a h g := by
  calc pHomeWinMass h a g
      = ∑ i ∈ goalRange g, ∑ j ∈ goalRange g,
          (if j < i then poissonPmf j a * poissonPmf i h else 0) := by
        unfold pHomeWinMass
        refine Finset.sum_congr rfl fun i _ => Finset.sum_congr rfl fun j _ => ?_
        by_cases hij : i > j
        · rw [if_pos hij, if_pos hij, mul_comm]
        · rw [if_neg hij, if_neg hij]
    _ = ∑ j ∈ goalRange g, ∑ i ∈ goalRange g,
          (if j < i then poissonPmf j a * poissonPmf i h else 0) := Finset.sum_comm
    _ = pAwayWinMass a h g := rfl

lemma pDrawMass_comm (h a : ℝ) (g : ℤ) : pDrawMass h a g = pDrawMass a h g := by
  calc pDrawMass h a g
      = ∑ i ∈ goalRange g, ∑ j ∈ goalRange g,
          (if j = i then poissonPmf j a * poissonPmf i h else 0) := by
        unfold pDrawMass
        refine Finset.sum_congr rfl fun i _ => Finset.sum_congr rfl fun j _ => ?_
        by_cases hij : i = j
        · rw [if_pos hij, if_pos hij.symm, hij, mul_comm]
        · rw [if_neg hij, if_neg (Ne.symm hij)]
    _ = ∑ j ∈ goalRange g, ∑ i ∈ goalRange g,
          (if j = i then poissonPmf j a * poissonPmf i h else 0) := Finset.sum_comm
    _ = pDrawMass a h g := rfl

/-- Claim C6: swapping the two intensities swaps the home-win and away-win
probabilities and preserves the draw probability, for every truncation
bound max_goals. -/
theorem calculate_1x2_symmetry (a b : ℝ) (max_goals : ℤ) (hA : 0 ≤ a) (hB : 0 ≤ b) :
    calculate_1x2_and_xg a b max_goals =
      Except.map (fun p : ℝ × ℝ × ℝ => (p.2.2, p.2.1, p.1))
        (calculate_1x2_and_xg b a max_goals) := by
  simp only [calculate_1x2_and_xg]
  rw [if_neg (show ¬(a < 0 ∨ b < 0) by push_neg; exact ⟨hA, hB⟩),
    if_neg (show ¬(b < 0 ∨ a < 0) by push_neg; exact ⟨hB, hA⟩)]
  rw [pHomeWinMass_swap a b, pDrawMass_comm a b, ← pHomeWinMass_swap b a]
  rw [show pAwayWinMass b a max_goals + pDrawMass b a max_goals + pHomeWinMass b a max_goals =
    pHomeWinMass b a max_goals + pDrawMass b a max_goals + pAwayWinMass b a max_goals from by ring]
  split_ifs with hpos
  · simp [Except.map]
  · simp [Except.map]

/-- Witness for claim C6 at a = 1, b = 0, max_goals = 10. -/
theorem calculate_1x2_symmetry_witness :
    (0 : ℝ) ≤ 1 ∧ (0 : ℝ) ≤ 0 ∧
    calculate_1x2_and_xg 1 0 10 =
      Except.map (fun p : ℝ × ℝ × ℝ => (p.2.2, p.2.1, p.1)) (calculate_1x2_and_xg 0 1 10) :=
  ⟨by norm_num, le_refl 0, calculate_1x2_symmetry 1 0 10 (by norm_num) (le_refl 0)⟩

/-- Claim C10: for nonnegative intensities the accumulated total mass is
strictly positive whenever max_goals ≥ 0 (the (0,0) cell contributes
exp (-home_xg) * exp (-away_xg) > 0), so the normalization branch is taken;
the unnormalized branch is reached only for max_goals < 0, where the function
returns (0, 0, 0), whose components do not sum to 1. -/
theorem calculate_1x2_total_mass_dichotomy (home_xg away_xg : ℝ)
    (hh : 0 ≤ home_xg) (ha : 0 ≤ away_xg) (max_goals : ℤ) :
    (0 ≤ max_goals →
      0 < pHomeWinMass home_xg away_xg max_goals + pDrawMass home_xg away_xg max_goals +
          pAwayWinMass home_xg away_xg max_goals) ∧
    (max_goals < 0 →
      calculate_1x2_and_xg home_xg away_xg max_goals = Except.ok (0, 0, 0) ∧
      (0 : ℝ) + 0 + 0 ≠ 1) := by
  constructor
  · intro hg
    exact totalMass_pos hh ha hg
  · intro hg
    constructor
    · unfold calculate_1x2_and_xg
      rw [if_neg (by push_neg; exact ⟨hh, ha⟩)]
      simp only [pHomeWinMass_neg hg, pDrawMass_neg hg, pAwayWinMass_neg hg]
      norm_num
    · norm_num

/-- Witness for claim C10 at home_xg = 0, away_xg = 0, max_goals = -1. -/
theorem calculate_1x2_total_mass_dichotomy_witness :
    (0 : ℝ) ≤ 0 ∧
    ((0 : ℤ) ≤ -1 →
      0 < pHomeWinMass 0 0 (-1) + pDrawMass 0 0 (-1) + pAwayWinMass 0 0 (-1)) ∧
    ((-1 : ℤ) < 0 →
      calculate_1x2_and_xg 0 0 (-1) = Except.ok (0, 0, 0) ∧ (0 : ℝ) + 0 + 0 ≠ 1) :=
  ⟨le_refl 0, calculate_1x2_total_mass_dichotomy 0 0 (le_refl 0) (le_refl 0) (-1)⟩

/-! The draw-no-bet intensity solver. -/

/-- Probability that the difference of two independent Poisson counts with
rates mu1 and mu2 is exactly zero: the semantics of
scipy.stats.skellam.pmf 0 mu1 mu2. -/
noncomputable def skellamPmfZero (μ1 μ2 : ℝ) : ℝ :=
  tsum fun n : ℕ => poissonPmf n μ1 * poissonPmf n μ2

/-- Probability that the difference of two independent Poisson counts with
rates mu1 and mu2 is at most zero: the semantics of
scipy.stats.skellam.cdf 0 mu1 mu2. -/
noncomputable def skellamCdfZero (μ1 μ2 : ℝ) : ℝ :=
  tsum fun q : ℕ × ℕ =>
    if q.1 ≤ q.2 then poissonPmf q.1 μ1 * poissonPmf q.2 μ2 else 0

/-- The objective function minimized inside calculate_xg_from_dnb_probs,
closing over the two DNB probabilities and the total intensity. -/
noncomputable def objective (home_dnb_prob away_dnb_prob total_xg lambda_h : ℝ) : ℝ :=
  let lambda_a := total_xg - lambda_h
  if lambda_h ≤ 1e-5 ∨ lambda_a ≤ 1e-5 then 1e9
  else
    let home_win_prob := 1 - skellamCdfZero lambda_h lambda_a
    let draw_prob := skellamPmfZero lambda_h lambda_a
    if draw_prob ≥ 1 - 1e-5 then 1e9
    else
      let model_h_dnb := home_win_prob / (1 - draw_prob)
      let model_a_dnb := (1 - draw_prob - home_win_prob) / (1 - draw_prob)
      (model_h_dnb - home_dnb_prob) ^ 2 + (model_a_dnb - away_dnb_prob) ^ 2

/-- Claim C3: the objective returns the penalty constant 1e9 exactly on the
guarded region (a candidate intensity at most 1e-5 on either side, or Skellam
draw probability at least 1 - 1e-5), and elsewhere the squared-error loss
against the Skellam-derived DNB split, whose away component is the exact
complement of the home component. -/
theorem objective_characterization (home_dnb_prob away_dnb_prob total_xg lambda_h : ℝ) :
    objective home_dnb_prob away_dnb_prob total_xg lambda_h =
      if lambda_h ≤ 1e-5 ∨ total_xg - lambda_h ≤ 1e-5 ∨
          1 - 1e-5 ≤ skellamPmfZero lambda_h (total_xg - lambda_h) then (1e9 : ℝ)
      else
        ((1 - skellamCdfZero lambda_h (total_xg - lambda_h)) /
            (1 - skellamPmfZero lambda_h (total_xg - lambda_h)) - home_dnb_prob) ^ 2 +
        ((1 - (1 - skellamCdfZero lambda_h (total_xg - lambda_h)) /
            (1 - skellamPmfZero lambda_h (total_xg - lambda_h))) - away_dnb_prob) ^ 2 := by
  simp only [objective]
  by_cases h1 : lambda_h ≤ 1e-5 ∨ total_xg - lambda_h ≤ 1e-5
  · rw [if_pos h1, if_pos (show lambda_h ≤ 1e-5 ∨ total_xg - lambda_h ≤ 1e-5 ∨
      1 - 1e-5 ≤ skellamPmfZero lambda_h (total_xg - lambda_h) from by tauto)]
  · rw [if_neg h1]
    by_cases h2 : skellamPmfZero lambda_h (total_xg - lambda_h) ≥ 1 - 1e-5
    · rw [if_pos h2, if_pos (Or.inr (Or.inr h2))]
    · have h3 : ¬(lambda_h ≤ 1e-5 ∨ total_xg - lambda_h ≤ 1e-5 ∨
          1 - 1e-5 ≤ skellamPmfZero lambda_h (total_xg - lambda_h)) := by
        push_neg at h1 h2 ⊢
        exact ⟨h1.1, h1.2, h2⟩
      rw [if_neg h2, if_neg h3]
      push_neg at h2
      have hd : (1 : ℝ) - skellamPmfZero lambda_h (total_xg - lambda_h) ≠ 0 := by
        intro heq
        linarith
      have key : (1 - skellamPmfZero lambda_h (total_xg - lambda_h) -
          (1 - skellamCdfZero lambda_h (total_xg - lambda_h))) /
            (1 - skellamPmfZero lambda_h (total_xg - lambda_h)) =
          1 - (1 - skellamCdfZero lambda_h (total_xg - lambda_h)) /
            (1 - skellamPmfZero lambda_h (total_xg - lambda_h)) := by
        field_simp
      rw [key]

/-- Result record of the external bounded optimizer
(scipy.optimize.minimize): a convergence flag, the located minimizer and a
diagnostic message. -/
structure OptResult where
  success : Bool
  x : ℝ
  message : String

/-- numpy.isclose a b with explicit absolute tolerance atol and the numpy
default relative tolerance rtol = 1e-5:
the test is abs (a - b) ≤ atol + rtol * abs b. -/
def np_isclose (a b atol : ℝ) : Prop :=
  |a - b| ≤ atol + 1e-5 * |b|

noncomputable instance (a b atol : ℝ) : Decidable (np_isclose a b atol) :=
  inferInstanceAs (Decidable (|a - b| ≤ atol + 1e-5 * |b|))

/-- Python round (x, 4): round to the nearest multiple of 1e-4.  Mathlib
round resolves exact ties upward while Python resolves them to even, but the
two agree away from exact ties, and every bound proved below holds for
either convention. -/
noncomputable def round4 (x : ℝ) : ℝ :=
  (round (x * 10 ^ 4) : ℤ) / 10 ^ 4

/-- calculate_xg_from_dnb_probs from the source.  The call into the external
optimizer scipy.optimize.minimize (method L-BFGS-B, bounds
[(1e-5, total_xg - 1e-5)], initial guess total_xg * home_dnb_prob, option
maxiter) is represented by the explicit parameter minimize, applied to the
objective, the initial guess, the bounds pair and the iteration budget. -/
noncomputable def calculate_xg_from_dnb_probs
    (minimize : (ℝ → ℝ) → ℝ → ℝ × ℝ → ℕ → OptResult)
    (home_dnb_prob away_dnb_prob total_xg : ℝ) (max_iter : ℕ := 500) :
    Except OddsError (ℝ × ℝ) :=
  if ¬ np_isclose (home_dnb_prob + away_dnb_prob) 1 1e-4 then
    Except.error (OddsError.invalidArgument "DNB probabilities must sum to 1")
  else
    let result := minimize (objective home_dnb_prob away_dnb_prob total_xg)
      (total_xg * home_dnb_prob) (1e-5, total_xg - 1e-5) max_iter
    if result.success = false then
      Except.error (OddsError.optimizationFailure ("Optimization failed: " ++ result.message))
    else
      let home_xg := round4 result.x
      let away_xg := round4 (total_xg - home_xg)
      Except.ok (home_xg, away_xg)

/-- Optimizer model: converges and reports the initial guess. -/
def returnGuessOpt : (ℝ → ℝ) → ℝ → ℝ × ℝ → ℕ → OptResult :=
  fun _ x0 _ _ => ⟨true, x0, ""⟩

/-- Optimizer model: converges at the lower search bound. -/
def lowerBoundOpt : (ℝ → ℝ) → ℝ → ℝ × ℝ → ℕ → OptResult :=
  fun _ _ bounds _ => ⟨true, bounds.1, ""⟩

/-- Optimizer model: converges at the upper search bound. -/
def upperBoundOpt : (ℝ → ℝ) → ℝ → ℝ × ℝ → ℕ → OptResult :=
  fun _ _ bounds _ => ⟨true, bounds.2, ""⟩

/-- Optimizer model: reports non-convergence with an L-BFGS-B style
diagnostic message. -/
def failingOpt : (ℝ → ℝ) → ℝ → ℝ × ℝ → ℕ → OptResult :=
  fun _ _ _ _ => ⟨false, 0, "ABNORMAL_TERMINATION_IN_LNSRCH"⟩

/-! Bounds on round4. -/

lemma abs_round4_sub (x : ℝ) : |round4 x - x| ≤ 5e-5 := by
  have h := abs_sub_round (x * 10 ^ 4)
  have hrw : round4 x - x = -((x * 10 ^ 4 - (round (x * 10 ^ 4) : ℝ)) / 10 ^ 4) := by
    unfold round4
    field_simp
    ring
  rw [hrw, abs_neg, abs_div, abs_of_pos (show (0:ℝ) < 10 ^ 4 by norm_num)]
  rw [div_le_iff₀ (show (0:ℝ) < 10 ^ 4 by norm_num)]
  calc |x * 10 ^ 4 - (round (x * 10 ^ 4) : ℝ)| ≤ 1 / 2 := h
    _ ≤ 5e-5 * 10 ^ 4 := by norm_num

lemma round4_nonneg {x : ℝ} (hx : -5e-5 ≤ x) : 0 ≤ round4 x := by
  have hz : (0 : ℤ) ≤ round (x * 10 ^ 4) := by
    rw [round_eq, Int.le_floor]
    push_cast
    nlinarith
  unfold round4
  have : (0 : ℝ) ≤ (round (x * 10 ^ 4) : ℝ) := by exact_mod_cast hz
  positivity

lemma round4_eq (x : ℝ) (n : ℤ) (h1 : (n : ℝ) ≤ x * 10 ^ 4 + 1 / 2)
    (h2 : x * 10 ^ 4 + 1 / 2 < (n : ℝ) + 1) : round4 x = (n : ℝ) / 10 ^ 4 := by
  unfold round4
  rw [round_eq, show ⌊x * 10 ^ 4 + 1 / 2⌋ = n from Int.floor_eq_iff.mpr ⟨h1, h2⟩]

lemma round4_lower_bound_val : round4 (1e-5 : ℝ) = 0 := by
  have := round4_eq 1e-5 0 (by norm_num) (by norm_num)
  simpa using this

lemma round4_one : round4 (1 : ℝ) = 1 := by
  have := round4_eq 1 10000 (by norm_num) (by norm_num)
  norm_num at this
  exact this

lemma round4_upper_bound_val : round4 ((1 : ℝ) - 1e-5) = 1 := by
  have h := round4_eq ((1 : ℝ) - 1e-5) 10000 (by norm_num) (by norm_num)
  rw [h]
  norm_num

lemma round4_zero : round4 (0 : ℝ) = 0 := by
  have := round4_eq 0 0 (by norm_num) (by norm_num)
  simpa using this

/-- Claim C4 (amended): calculate_xg_from_dnb_probs fails with the
InvalidArgument condition exactly when the DNB probabilities miss 1 by more
than the effective numpy tolerance 1.1e-4 (atol 1e-4 plus the default
rtol 1e-5 times 1); in particular the pair (0.6, 0.5) fails. -/
theorem calculate_xg_invalid_iff
    (minimize : (ℝ → ℝ) → ℝ → ℝ × ℝ → ℕ → OptResult)
    (home_dnb_prob away_dnb_prob total_xg : ℝ) (max_iter : ℕ) :
    ((∃ msg, calculate_xg_from_dnb_probs minimize home_dnb_prob away_dnb_prob total_xg max_iter =
        Except.error (OddsError.invalidArgument msg)) ↔
      1.1e-4 < |home_dnb_prob + away_dnb_prob - 1|) ∧
    calculate_xg_from_dnb_probs returnGuessOpt 0.6 0.5 1 500 =
      Except.error (OddsError.invalidArgument "DNB probabilities must sum to 1") := by
  constructor
  · unfold calculate_xg_from_dnb_probs
    by_cases hv : np_isclose (home_dnb_prob + away_dnb_prob) 1 1e-4
    · rw [if_neg (not_not_intro hv)]
      have hb : ¬ (1.1e-4 < |home_dnb_prob + away_dnb_prob - 1|) := by
        unfold np_isclose at hv
        rw [abs_one] at hv
        push_neg
        linarith
      refine iff_of_false ?_ hb
      rintro ⟨msg, hmsg⟩
      simp only [] at hmsg
      split at hmsg <;> simp at hmsg
    · rw [if_pos hv]
      have hgt : 1.1e-4 < |home_dnb_prob + away_dnb_prob - 1| := by
        unfold np_isclose at hv
        rw [abs_one] at hv
        push_neg at hv
        linarith
      exact iff_of_true ⟨_, rfl⟩ hgt
  · unfold calculate_xg_from_dnb_probs
    rw [if_pos (show ¬ np_isclose ((0.6 : ℝ) + 0.5) 1 1e-4 from by
      unfold np_isclose
      rw [show (0.6 : ℝ) + 0.5 - 1 = 0.1 from by norm_num, abs_of_pos (by norm_num), abs_one]
      norm_num)]

/-- Counterexample to claim C4 as stated: with the validation tolerance read
as 1e-4, the pair (0.6, 0.400105) misses 1 by 1.05e-4 > 1e-4 and should
fail, yet numpy.isclose with its default rtol accepts it and the solver
proceeds to a numeric result. -/
theorem calculate_xg_tolerance_counterexample :
    1e-4 < |(0.6 : ℝ) + 0.400105 - 1| ∧
    calculate_xg_from_dnb_probs returnGuessOpt 0.6 0.400105 1 500 =
      Except.ok (0.6, 0.4) := by
  constructor
  · rw [show (0.6 : ℝ) + 0.400105 - 1 = 0.000105 from by norm_num, abs_of_pos (by norm_num)]
    norm_num
  · unfold calculate_xg_from_dnb_probs
    rw [if_neg (not_not_intro (show np_isclose ((0.6 : ℝ) + 0.400105) 1 1e-4 from by
      unfold np_isclose
      rw [show (0.6 : ℝ) + 0.400105 - 1 = 0.000105 from by norm_num,
        abs_of_pos (by norm_num), abs_one]
      norm_num))]
    simp only [returnGuessOpt]
    rw [if_neg (by simp)]
    rw [show (1 : ℝ) * 0.6 = 0.6 from by norm_num]
    have hx : round4 (0.6 : ℝ) = 0.6 := by
      rw [round4_eq 0.6 6000 (by norm_num) (by norm_num)]
      norm_num
    rw [hx, show (1 : ℝ) - 0.6 = 0.4 from by norm_num]
    have hy : round4 (0.4 : ℝ) = 0.4 := by
      rw [round4_eq 0.4 4000 (by norm_num) (by norm_num)]
      norm_num
    rw [hy]

/-- Claim C9: the validation of calculate_xg_from_dnb_probs checks only the
sum of the DNB probabilities: the pair (-0.5, 1.5), with both components
outside [0, 1], passes it and the solver proceeds to the optimization,
returning a numeric result instead of InvalidArgument. -/
theorem calculate_xg_validates_only_sum :
    np_isclose ((-0.5 : ℝ) + 1.5) 1 1e-4 ∧
    calculate_xg_from_dnb_probs returnGuessOpt (-0.5) 1.5 2 500 = Except.ok (-1, 3) := by
  have hv : np_isclose ((-0.5 : ℝ) + 1.5) 1 1e-4 := by
    unfold np_isclose
    rw [show (-0.5 : ℝ) + 1.5 - 1 = 0 from by norm_num, abs_zero, abs_one]
    norm_num
  refine ⟨hv, ?_⟩
  unfold calculate_xg_from_dnb_probs
  rw [if_neg (not_not_intro hv)]
  simp only [returnGuessOpt]
  rw [if_neg (by simp)]
  rw [show (2 : ℝ) * (-0.5) = -1 from by norm_num]
  have hx : round4 (-1 : ℝ) = -1 := by
    have := round4_eq (-1) (-10000) (by norm_num) (by norm_num)
    norm_num at this
    exact this
  rw [hx, show (2 : ℝ) - (-1) = 3 from by norm_num]
  have hy : round4 (3 : ℝ) = 3 := by
    have := round4_eq 3 30000 (by norm_num) (by norm_num)
    norm_num at this
    exact this
  rw [hy]

/-- Claim C7: when the optimizer reports non-convergence, the solver fails
with the OptimizationFailure condition carrying the optimizer diagnostic
message, and returns no numeric result. -/
theorem calculate_xg_optimization_failure
    (minimize : (ℝ → ℝ) → ℝ → ℝ × ℝ → ℕ → OptResult)
    (home_dnb_prob away_dnb_prob total_xg : ℝ) (max_iter : ℕ) (r : OptResult)
    (hv : |home_dnb_prob + away_dnb_prob - 1| ≤ 1.1e-4)
    (hr : minimize (objective home_dnb_prob away_dnb_prob total_xg)
        (total_xg * home_dnb_prob) (1e-5, total_xg - 1e-5) max_iter = r)
    (hs : r.success = false) :
    calculate_xg_from_dnb_probs minimize home_dnb_prob away_dnb_prob total_xg max_iter =
      Except.error (OddsError.optimizationFailure ("Optimization failed: " ++ r.message)) := by
  have hv2 : np_isclose (home_dnb_prob + away_dnb_prob) 1 1e-4 := by
    unfold np_isclose
    rw [abs_one]
    linarith
  unfold calculate_xg_from_dnb_probs
  rw [if_neg (not_not_intro hv2), hr, if_pos hs]

/-- Witness for claim C7: a non-converging optimizer run on the symmetric
input (0.5, 0.5, 2.6). -/
theorem calculate_xg_optimization_failure_witness :
    |(0.5 : ℝ) + 0.5 - 1| ≤ 1.1e-4 ∧
    (failingOpt (objective 0.5 0.5 2.6) (2.6 * 0.5) (1e-5, 2.6 - 1e-5) 500).success = false ∧
    calculate_xg_from_dnb_probs failingOpt 0.5 0.5 2.6 500 =
      Except.error (OddsError.optimizationFailure
        ("Optimization failed: " ++ "ABNORMAL_TERMINATION_IN_LNSRCH")) := by
  have hv : |(0.5 : ℝ) + 0.5 - 1| ≤ 1.1e-4 := by
    rw [show (0.5 : ℝ) + 0.5 - 1 = 0 from by norm_num, abs_zero]
    norm_num
  exact ⟨hv, rfl, calculate_xg_optimization_failure failingOpt 0.5 0.5 2.6 500
    ⟨false, 0, "ABNORMAL_TERMINATION_IN_LNSRCH"⟩ hv rfl rfl⟩

/-- Claim C2 (amended): on a validated input, when the optimizer converges to
a point inside the search bounds, the solver returns the point rounded to 4
decimal places and the complement of that rounding, both nonnegative, with
the pair summing to total_xg within 1e-4.  (Strict positivity of both
components fails: see the counterexample.) -/
theorem calculate_xg_solution_bounds
    (minimize : (ℝ → ℝ) → ℝ → ℝ × ℝ → ℕ → OptResult)
    (home_dnb_prob away_dnb_prob total_xg : ℝ) (max_iter : ℕ) (r : OptResult)
    (hv : |home_dnb_prob + away_dnb_prob - 1| ≤ 1.1e-4)
    (hr : minimize (objective home_dnb_prob away_dnb_prob total_xg)
        (total_xg * home_dnb_prob) (1e-5, total_xg - 1e-5) max_iter = r)
    (hs : r.success = true)
    (hlo : 1e-5 ≤ r.x) (hhi : r.x ≤ total_xg - 1e-5) :
    calculate_xg_from_dnb_probs minimize home_dnb_prob away_dnb_prob total_xg max_iter =
      Except.ok (round4 r.x, round4 (total_xg - round4 r.x)) ∧
    0 ≤ round4 r.x ∧ 0 ≤ round4 (total_xg - round4 r.x) ∧
    |round4 r.x + round4 (total_xg - round4 r.x) - total_xg| ≤ 1e-4 := by
  have hv2 : np_isclose (home_dnb_prob + away_dnb_prob) 1 1e-4 := by
    unfold np_isclose
    rw [abs_one]
    linarith
  have hx4 := abs_le.mp (abs_round4_sub r.x)
  refine ⟨?_, ?_, ?_, ?_⟩
  · unfold calculate_xg_from_dnb_probs
    rw [if_neg (not_not_intro hv2), hr, if_neg (by rw [hs]; simp)]
  · exact round4_nonneg (by linarith)
  · exact round4_nonneg (by linarith)
  · have hy := abs_round4_sub (total_xg - round4 r.x)
    rw [show round4 r.x + round4 (total_xg - round4 r.x) - total_xg =
      round4 (total_xg - round4 r.x) - (total_xg - round4 r.x) from by ring]
    linarith

/-- Witness for claim C2 (amended) at the symmetric input (0.5, 0.5, 1) with
an optimizer converging at the initial guess. -/
theorem calculate_xg_solution_bounds_witness :
    |(0.5 : ℝ) + 0.5 - 1| ≤ 1.1e-4 ∧
    (calculate_xg_from_dnb_probs returnGuessOpt 0.5 0.5 1 500 =
      Except.ok (round4 ((1 : ℝ) * 0.5), round4 (1 - round4 ((1 : ℝ) * 0.5))) ∧
    0 ≤ round4 ((1 : ℝ) * 0.5) ∧ 0 ≤ round4 ((1 : ℝ) - round4 ((1 : ℝ) * 0.5)) ∧
    |round4 ((1 : ℝ) * 0.5) + round4 ((1 : ℝ) - round4 ((1 : ℝ) * 0.5)) - 1| ≤ 1e-4) := by
  have hv : |(0.5 : ℝ) + 0.5 - 1| ≤ 1.1e-4 := by
    rw [show (0.5 : ℝ) + 0.5 - 1 = 0 from by norm_num, abs_zero]
    norm_num
  exact ⟨hv, calculate_xg_solution_bounds returnGuessOpt 0.5 0.5 1 500
    ⟨true, (1 : ℝ) * 0.5, ""⟩ hv rfl rfl (by norm_num) (by norm_num)⟩

/-- Counterexample to claim C2 as stated: a converged bounded search may end
at either search bound, and rounding to 4 decimal places then collapses the
boundary offset 1e-5, producing a component exactly 0 — not strictly
positive as the claim requires. -/
theorem calculate_xg_positivity_counterexample :
    calculate_xg_from_dnb_probs lowerBoundOpt 0.5 0.5 1 500 = Except.ok (0, 1) ∧
    calculate_xg_from_dnb_probs upperBoundOpt 0.5 0.5 1 500 = Except.ok (1, 0) ∧
    ¬ ((0 : ℝ) < 0) := by
  have hv : np_isclose ((0.5 : ℝ) + 0.5) 1 1e-4 := by
    unfold np_isclose
    rw [show (0.5 : ℝ) + 0.5 - 1 = 0 from by norm_num, abs_zero, abs_one]
    norm_num
  refine ⟨?_, ?_, lt_irrefl 0⟩
  · unfold calculate_xg_from_dnb_probs
    rw [if_neg (not_not_intro hv)]
    simp only [lowerBoundOpt]
    rw [if_neg (by simp)]
    rw [round4_lower_bound_val, sub_zero, round4_one]
  · unfold calculate_xg_from_dnb_probs
    rw [if_neg (not_not_intro hv)]
    simp only [upperBoundOpt]
    rw [if_neg (by simp)]
    rw [round4_upper_bound_val, sub_self, round4_zero]

/-! The over/under 2.5 goals block. -/

/-- Cumulative Poisson probability of at most k events, the semantics of
scipy.stats.poisson.cdf k mu. -/
noncomputable def poissonCdf (k : ℕ) (μ : ℝ) : ℝ :=
  ∑ i ∈ Finset.range (k + 1), poissonPmf i μ

/-- p_under_25 from the source: poisson.cdf 2 total_expected_goals. -/
noncomputable def p_under_25 (total_expected_goals : ℝ) : ℝ :=
  poissonCdf 2 total_expected_goals

/-- p_over_25 from the source: 1 - p_under_25. -/
noncomputable def p_over_25 (total_expected_goals : ℝ) : ℝ :=
  1 - p_under_25 total_expected_goals

/-- The decimal-odds derivation used by the display code:
1 / p when p > 0, else the sentinel positive infinity. -/
noncomputable def decimalOdds (p : ℝ) : EReal :=
  if p > 0 then ((1 / p : ℝ) : EReal) else ⊤

/-- Specification reading of the under probability at threshold 2.5: the
cumulative Poisson probability of at most floor 2.5 total goals. -/
noncomputable def specUnderProbability (total_xg : ℝ) : ℝ :=
  ∑ i ∈ Finset.range ((⌊(2.5 : ℝ)⌋).toNat + 1), poissonPmf i total_xg

/-- Claim C8: the under-2.5 probability is the Poisson cumulative
probability of at most floor 2.5 = 2 total goals, the over-2.5 probability
is its complement, and the derived decimal odds are 1 / p for p > 0 and the
positive-infinity sentinel at p = 0. -/
theorem under_over_25_spec (total_xg p : ℝ) :
    p_under_25 total_xg = specUnderProbability total_xg ∧
    p_under_25 total_xg + p_over_25 total_xg = 1 ∧
    (0 < p → decimalOdds p = ((1 / p : ℝ) : EReal)) ∧
    (p = 0 → decimalOdds p = (⊤ : EReal)) := by
  refine ⟨?_, ?_, ?_, ?_⟩
  · unfold p_under_25 poissonCdf specUnderProbability
    rw [show ⌊(2.5 : ℝ)⌋ = 2 from Int.floor_eq_iff.mpr (by norm_num)]
    rfl
  · unfold p_over_25
    ring
  · intro hp
    unfold decimalOdds
    rw [if_pos hp]
  · intro hp
    unfold decimalOdds
    rw [if_neg (by rw [hp]; exact lt_irrefl 0)]

/-- Witness for claim C8 at total_xg = 0 and probabilities 1 and 0. -/
theorem under_over_25_spec_witness :
    p_under_25 0 = specUnderProbability 0 ∧
    decimalOdds 1 = ((1 / 1 : ℝ) : EReal) ∧
    decimalOdds 0 = (⊤ : EReal) :=
  ⟨(under_over_25_spec 0 1).1, (under_over_25_spec 0 1).2.2.1 one_pos,
    (under_over_25_spec 0 0).2.2.2 rfl⟩

end OddsXg
